import Mathlib

/-!
Verification of the booking/availability logic of a Django sports-marketplace
application (apps: Auth_Profile, Coach, Court, Event).

Shallow embedding conventions:
- user ids, court ids, event ids and primary keys are `Nat`;
- dates are day numbers (`Nat`), times are minutes of the day (`Nat`),
  so `time(23, 59)` is `23 * 60 + 59 = 1439`;
- nullable foreign keys are `Option Nat`;
- a view's JSON reply is summarised by `Resp`: `Resp.ok` is a
  `success: true` body, `Resp.err s` a `success: false` body sent with
  HTTP status `s` (`err 200` is a failure body on a 200 reply);
- the database row a view mutates is passed in and returned explicitly.
-/

namespace PBP

/-- Outcome of a JSON view: success, or a failure body with its HTTP status. -/
inductive Resp where
  | ok : Resp
  | err : Nat → Resp
deriving DecidableEq, Repr

/-! ## Coach app (src/Coach/models.py, src/Coach/views.py)

The `Coach` model fields relevant to the booking engine: `user` (the owner,
a nullable FK), `peserta` (the booker, nullable), `isBooked`, `date`,
`startTime`, `endTime`.  Other columns (title, price, rating, links, image)
are never read by the booking transitions and are omitted. -/

structure Coach where
  owner : Option Nat
  peserta : Option Nat
  isBooked : Bool
  date : Nat
  startTime : Nat
  endTime : Nat
deriving DecidableEq, Repr

/-- `Coach.clean` (models.py lines 56-77): raises `ValidationError` when
`endTime <= startTime`, when `date` is before the current date, or when
`peserta` and `user` are both set and equal.  `coachCleanOk today c` is true
iff `clean` passes.  `Coach.save` (lines 75-77) calls `full_clean`, so every
save re-runs these checks; `today` is the value of `timezone.now().date()`
at the moment of the save. -/
def coachCleanOk (today : Nat) (c : Coach) : Bool :=
  decide (c.startTime < c.endTime) && decide (today ≤ c.date) &&
    !(c.peserta.isSome && c.owner.isSome && c.peserta == c.owner)

/-- `book_coach` (views.py lines 305-332): 400 if the actor owns the coach,
400 if already booked; otherwise sets `peserta` and `isBooked` and saves.
A `ValidationError` raised by the save is answered with 400 and leaves the
stored row unchanged; any other exception gives 500. -/
def bookCoach (today actor : Nat) (c : Coach) : Resp × Coach :=
  if c.owner = some actor then (.err 400, c)
  else if c.isBooked then (.err 400, c)
  else
    let c2 : Coach := { c with peserta := some actor, isBooked := true }
    if coachCleanOk today c2 then (.ok, c2) else (.err 400, c)

/-- `cancel_booking` (views.py lines 334-353): 403 unless the actor is the
current `peserta`; otherwise clears `peserta` and `isBooked` and saves.
The save is wrapped in a blanket `except Exception` handler, so a
`ValidationError` from `full_clean` becomes a 500 with the row unchanged. -/
def cancelBooking (today actor : Nat) (c : Coach) : Resp × Coach :=
  if c.peserta ≠ some actor then (.err 403, c)
  else
    let c2 : Coach := { c with peserta := none, isBooked := false }
    if coachCleanOk today c2 then (.ok, c2) else (.err 500, c)

/-- `mark_available` (views.py lines 355-384): 403 unless the actor owns the
coach; otherwise clears `isBooked` and `peserta` unconditionally and saves.
Exceptions from the save become a 500 with the row unchanged. -/
def markAvailable (today actor : Nat) (c : Coach) : Resp × Coach :=
  if c.owner ≠ some actor then (.err 403, c)
  else
    let c2 : Coach := { c with isBooked := false, peserta := none }
    if coachCleanOk today c2 then (.ok, c2) else (.err 500, c)

/-- `mark_unavailable` (views.py lines 386-414): 403 unless the actor owns
the coach; otherwise sets `isBooked := true` (leaving `peserta` as it is)
and saves.  Exceptions from the save become a 500 with the row unchanged. -/
def markUnavailable (today actor : Nat) (c : Coach) : Resp × Coach :=
  if c.owner ≠ some actor then (.err 403, c)
  else
    let c2 : Coach := { c with isBooked := true }
    if coachCleanOk today c2 then (.ok, c2) else (.err 500, c)

/-- `add_coach` (views.py lines 164-229): rejects `endTime <= startTime`
up front, builds a `Coach` with `user := actor`, `peserta` unset and
`isBooked` at its default `false`, then saves (which runs `clean`).
Returns the stored row, or `none` when validation rejects it. -/
def addCoach (today actor date s e : Nat) : Option Coach :=
  if e ≤ s then none
  else
    let c : Coach :=
      { owner := some actor, peserta := none, isBooked := false,
        date := date, startTime := s, endTime := e }
    if coachCleanOk today c then some c else none

/-- `update_coach` (views.py lines 239-303): 403 unless the actor owns the
coach; otherwise overwrites the submitted fields (here the modelled ones:
`date`, `startTime`, `endTime`; a field left unchanged is the old value) and
saves.  Exceptions become a 500 with the stored row unchanged;
`peserta` and `isBooked` are never touched. -/
def updateCoach (today actor d s e : Nat) (c : Coach) : Resp × Coach :=
  if c.owner ≠ some actor then (.err 403, c)
  else
    let c2 : Coach := { c with date := d, startTime := s, endTime := e }
    if coachCleanOk today c2 then (.ok, c2) else (.err 500, c)

/-- `mark_unavailable` followed by `mark_available`, both by `actor`,
both on the same day. -/
def coachRoundTrip (today actor : Nat) (c : Coach) : Coach :=
  (markAvailable today actor (markUnavailable today actor c).2).2

/-- Coach rows reachable from creation (`add_coach`) through the public
mutating operations of the app. -/
inductive CoachReach : Coach → Prop where
  | create (today actor date s e : Nat) (c : Coach) :
      addCoach today actor date s e = some c → CoachReach c
  | book (today actor : Nat) (c : Coach) :
      CoachReach c → CoachReach (bookCoach today actor c).2
  | cancel (today actor : Nat) (c : Coach) :
      CoachReach c → CoachReach (cancelBooking today actor c).2
  | avail (today actor : Nat) (c : Coach) :
      CoachReach c → CoachReach (markAvailable today actor c).2
  | unavail (today actor : Nat) (c : Coach) :
      CoachReach c → CoachReach (markUnavailable today actor c).2
  | update (today actor d s e : Nat) (c : Coach) :
      CoachReach c → CoachReach (updateCoach today actor d s e c).2

/-- Booking-state invariant: a set booker implies a booked flag, and the
booker is never the owner. -/
def CoachInv (c : Coach) : Prop :=
  (c.peserta.isSome → c.isBooked = true) ∧
    ∀ p, c.peserta = some p → c.owner ≠ some p

/-! ## Session authentication gate
(src/Coach/views.py lines 24-44 and 109-131; the Court app carries an
identical copy of `_get_current_user` / `_require_user` in
src/Court/views.py lines 114-149.)

A server-side session is its `user_id` value plus the other keys the login
view denormalises into it (`email`, `nama`, ...); the store of existing
users is the list of their ids. -/

structure Session where
  userId : Option Nat
  extraKeys : List String
deriving DecidableEq, Repr

/-- `request.session.flush()`: every key is dropped. -/
def flushSession : Session := { userId := none, extraKeys := [] }

/-- What an authentication gate hands back: the resolved user, a 401 JSON
body, or a redirect to the login page. -/
inductive AuthOutcome where
  | proceed : Nat → AuthOutcome
  | unauthorized : AuthOutcome
  | redirectLogin : AuthOutcome
deriving DecidableEq, Repr

/-- `custom_login_required` (Coach views.py lines 24-44): with no `user_id`
in the session, AJAX callers get a 401 JSON body and others a redirect;
with a `user_id` that resolves, the wrapped view runs; with a stale
`user_id`, the session is flushed and the caller redirected. -/
def customLoginRequired (users : List Nat) (isAjax : Bool) (s : Session) :
    AuthOutcome × Session :=
  match s.userId with
  | none => ((if isAjax then .unauthorized else .redirectLogin), s)
  | some uid =>
      if users.contains uid then (.proceed uid, s)
      else (.redirectLogin, flushSession)

/-- `_get_current_user` (Coach views.py lines 109-118): resolves the session
`user_id` against the user store, returning `none` on a stale id.  The
session itself is not touched. -/
def getCurrentUser (users : List Nat) (s : Session) : Option Nat :=
  match s.userId with
  | none => none
  | some uid => if users.contains uid then some uid else none

/-- `_require_user` (Coach views.py lines 120-131): `(some user, none)` on
success, otherwise `(none, some error)` where the error is a 401 JSON body
in `json_mode` and a login redirect otherwise.  The session is returned
unchanged on every path. -/
def requireUser (users : List Nat) (jsonMode : Bool) (s : Session) :
    (Option Nat × Option AuthOutcome) × Session :=
  match getCurrentUser users s with
  | some u => ((some u, none), s)
  | none =>
      ((none, some (if jsonMode then .unauthorized else .redirectLogin)), s)

/-! ## Court app (src/Court/models.py, src/Court/views.py)

`TimeSlot` rows carry `(court, date, start_time, end_time, is_available)`
plus an auto-increment primary key; a `SlotDB` is the table contents
together with the next key to assign. -/

structure Court where
  id : Nat
  createdBy : Option Nat
deriving DecidableEq, Repr

structure TimeSlot where
  pk : Nat
  court : Nat
  date : Nat
  startTime : Nat
  endTime : Nat
  isAvailable : Bool
deriving DecidableEq, Repr

structure SlotDB where
  slots : List TimeSlot
  nextPk : Nat
deriving DecidableEq, Repr

/-- The row predicate of `TimeSlot.objects.filter(court=..., date=...)`. -/
def slotMatch (court date : Nat) (t : TimeSlot) : Bool :=
  t.court == court && t.date == date

/-- `TimeSlot.objects.filter(court=court, date=date)`. -/
def slotsFor (db : SlotDB) (court date : Nat) : List TimeSlot :=
  db.slots.filter (slotMatch court date)

/-- Well-formedness the relational store guarantees for a table with an
auto-increment primary key: keys are distinct and below the next key. -/
def SlotDB.WF (db : SlotDB) : Prop :=
  (db.slots.map TimeSlot.pk).Nodup ∧ ∀ t ∈ db.slots, t.pk < db.nextPk

/-- `TimeSlot.objects.get_or_create(court=..., date=..., defaults=...)`,
as called at Court views.py lines 593-601 and 657-665 (both call sites use
`start_time=time(0,0)`, `end_time=time(23,59)` as defaults, differing only
in the default availability).  No row: insert the default row.  One row:
return it untouched.  Several rows: `get` raises `MultipleObjectsReturned`
(`none` here). -/
def getOrCreateSlot (db : SlotDB) (court date : Nat) (defAvail : Bool) :
    Option (TimeSlot × Bool × SlotDB) :=
  match slotsFor db court date with
  | [] =>
      let t : TimeSlot :=
        { pk := db.nextPk, court := court, date := date,
          startTime := 0, endTime := 1439, isAvailable := defAvail }
      some (t, true, { slots := db.slots ++ [t], nextPk := db.nextPk + 1 })
  | [t] => some (t, false, db)
  | _ => none

/-- `slot.save()`: an UPDATE of the row with the slot's primary key. -/
def saveSlot (db : SlotDB) (t : TimeSlot) : SlotDB :=
  { slots := db.slots.map (fun u => if u.pk == t.pk then t else u),
    nextPk := db.nextPk }

/-- `set_availability` (Court views.py lines 563-611): 403 unless
`Court.objects.get(id=court_id, created_by=current_user)` finds the court
(i.e. unless the actor is its creator); then upserts the single full-day
slot for the date (`00:00`-`23:59`, the requested flag) and deletes every
other row with the same court and date.  The `is_available` payload value
is already coerced to a `Bool` here, mirroring
`str(is_available).lower() not in (...)` on boolean payloads. -/
def setAvailability (db : SlotDB) (court : Court) (actor date : Nat)
    (isAvail : Bool) : Resp × SlotDB :=
  if court.createdBy ≠ some actor then (.err 403, db)
  else
    match getOrCreateSlot db court.id date isAvail with
    | none => (.err 500, db)
    | some (t, created, db1) =>
        let t2 : TimeSlot :=
          if created then t
          else { t with isAvailable := isAvail, startTime := 0, endTime := 1439 }
        let db2 : SlotDB := if created then db1 else saveSlot db1 t2
        let db3 : SlotDB :=
          { slots := db2.slots.filter
              (fun u => !(u.court == court.id && u.date == date && u.pk != t2.pk)),
            nextPk := db2.nextPk }
        (.ok, db3)

/-- `create_booking` (Court views.py lines 613-696): upserts the slot for
the date with `is_available=True` as default, answers 400 when the slot is
already unavailable, and otherwise stores it as a full-day unavailable
slot.  The authenticated `actor` is not recorded anywhere.  The blanket
exception handler turns `MultipleObjectsReturned` into a 500. -/
def createBooking (db : SlotDB) (court : Court) (_actor date : Nat) :
    Resp × SlotDB :=
  match getOrCreateSlot db court.id date true with
  | none => (.err 500, db)
  | some (t, _, db1) =>
      if t.isAvailable = false then (.err 400, db1)
      else
        let t2 : TimeSlot :=
          { t with isAvailable := false, startTime := 0, endTime := 1439 }
        (.ok, saveSlot db1 t2)

/-! ## Login view (src/Auth_Profile/views.py lines 82-126)

The file's imports are `render, redirect, JsonResponse, make_password,
check_password, User, json, datetime` — the name `auth` is never bound.
On matching credentials the view executes `auth.login(request, user)`
(line 99) before any of the session writes of lines 102-107; that
statement raises `NameError`, which the surrounding `try` (whose only
handler is `except User.DoesNotExist`) does not catch, so the request
dies with an unhandled exception and the session is left untouched. -/

structure AuthUser where
  id : Nat
  email : String
  nama : String
  kelamin : String
  tanggalLahir : String
  nomorHandphone : String
  password : String
deriving DecidableEq, Repr

/-- How a `POST /login/` request ends.  The `success` constructor is kept
for completeness: no execution path of the source reaches it, because the
unbound name `auth` is evaluated first. -/
inductive LoginOutcome where
  | success : LoginOutcome
  | failureMissingFields : LoginOutcome
  | failureWrongCredentials : LoginOutcome
  | uncaughtNameError : LoginOutcome
deriving DecidableEq, Repr

/-- `login_view` on a POST (views.py lines 82-126).  `checkPw plain hash`
stands for Django's `check_password`; `sess` is the session key set, which
the view never modifies because the `NameError` fires before lines
102-107. -/
def loginView (checkPw : String → String → Bool) (users : List AuthUser)
    (email password : String) (sess : List (String × String)) :
    LoginOutcome × List (String × String) :=
  if email == ("") || password == ("") then (.failureMissingFields, sess)
  else
    match users.find? (fun u => u.email == email) with
    | none => (.failureWrongCredentials, sess)
    | some u =>
        if checkPw password u.password then (.uncaughtNameError, sess)
        else (.failureWrongCredentials, sess)

/-! ## Event app (src/Event/views.py)

The `src/Event/models.py` snapshot is stale: it has no `EventSchedule`
class, its `EventRegistration` has no `schedule` field, and its `Event`
has no `status` column, while the views, forms and tests of the same app
all reference them.  The missing model parts are therefore modelled from
the spec below; the view logic itself is translated from
src/Event/views.py. -/

/-- Modelled from the spec: the current `Event` model's organizer link and
its string `status` field (`available` / `unavailable`), which the stale
src/Event/models.py lacks although views.py lines 407-434 and 796-826 and
the app's tests read and write them. -/
structure SportEvent where
  id : Nat
  organizer : Nat
  status : String
deriving DecidableEq, Repr

/-- `ajax_toggle_availability` (Event views.py lines 407-434): validates
that `is_available` is a JSON boolean (`none` models a non-boolean payload,
answered with a `success: false` body on a 200 reply), then writes the
status string.  No organizer check is performed on this path. -/
def ajaxToggleAvailability (ev : SportEvent) (_actor : Nat)
    (isAvailable : Option Bool) : Resp × SportEvent :=
  match isAvailable with
  | none => (.err 200, ev)
  | some b =>
      (.ok, { ev with status := if b then ("available") else ("unavailable") })

/-- `json_toggle_availability` (Event views.py lines 796-826): 403 unless
the actor is the event's organizer, 400 on a non-boolean `is_available`,
otherwise writes the status string. -/
def jsonToggleAvailability (ev : SportEvent) (actor : Nat)
    (isAvailable : Option Bool) : Resp × SportEvent :=
  if ev.organizer ≠ actor then (.err 403, ev)
  else
    match isAvailable with
    | none => (.err 400, ev)
    | some b =>
        (.ok, { ev with status := if b then ("available") else ("unavailable") })

/-- Modelled from the spec: an `EventRegistration` row is the unique
`(event, user, schedule)` triple recording a join; the stale
src/Event/models.py lacks the `schedule` field the views and tests use,
so the table is modelled as the list of stored triples. -/
abbrev RegRow : Type := Nat × Nat × Nat

/-- `ajax_join_event` (Event views.py lines 357-380) and `json_join_event`
(lines 706-739), which share their core: 400 when a registration with the
same `(event, user, schedule)` triple already exists, otherwise insert the
row. -/
def joinEvent (regs : List RegRow) (ev user sched : Nat) :
    Resp × List RegRow :=
  if regs.contains (ev, user, sched) then (.err 400, regs)
  else (.ok, regs ++ [(ev, user, sched)])

/-- `ajax_cancel_registration` (Event views.py lines 383-405) and
`json_cancel_event` (lines 741-765): 400 when the actor has no
registration for the event, otherwise delete every registration of that
`(event, user)` pair, whatever its schedule. -/
def cancelRegistrations (regs : List RegRow) (ev user : Nat) :
    Resp × List RegRow :=
  let mine := regs.filter (fun r => r.1 == ev && r.2.1 == user)
  if mine.isEmpty then (.err 400, regs)
  else (.ok, regs.filter (fun r => !(r.1 == ev && r.2.1 == user)))

/-- Registration tables reachable from empty through the join and cancel
views. -/
inductive RegsReach : List RegRow → Prop where
  | nil : RegsReach []
  | join (ev user sched : Nat) (regs : List RegRow) :
      RegsReach regs → RegsReach (joinEvent regs ev user sched).2
  | cancel (ev user : Nat) (regs : List RegRow) :
      RegsReach regs → RegsReach (cancelRegistrations regs ev user).2

/-- A concrete stored user matching the repository's own test fixture
(`Auth_Profile/tests.py`): email `test@example.com`, password
`password123` stored hashed. -/
def demoUser : AuthUser :=
  { id := 1, email := ("test@example.com"), nama := ("Test User"),
    kelamin := ("L"), tanggalLahir := ("1990-01-01"),
    nomorHandphone := ("1234567890"), password := ("hashed.password123") }

/-- A stand-in for Django's `check_password` that accepts exactly the demo
user's credentials. -/
def demoCheckPw (plain hash : String) : Bool :=
  plain == ("password123") && hash == ("hashed.password123")

/-! ## Theorems -/

/-- A successful `mark_available`: for the owner, on a coach whose time
window is consistent and whose date has not passed, the transition always
succeeds and clears both booking fields (whatever `peserta` held). -/
theorem markAvailable_ok (today actor : Nat) (c : Coach)
    (ho : c.owner = some actor) (hd : today ≤ c.date)
    (ht : c.startTime < c.endTime) :
    markAvailable today actor c =
      (Resp.ok, { c with isBooked := false, peserta := none }) := by
  unfold markAvailable coachCleanOk
  simp [ho, hd, ht]

/-- C1 (amended): `book` fails with 400 and leaves the row unchanged when
the actor owns the coach (whatever the state) or when the coach is already
booked; in the remaining case it succeeds, setting `peserta` to the actor
and `isBooked` to true, provided the re-validation run by the save accepts
the row -- in particular provided the coach's date has not passed. -/
theorem C1_book_transitions (today actor : Nat) (c : Coach) :
    (c.owner = some actor → bookCoach today actor c = (Resp.err 400, c))
  ∧ (c.owner ≠ some actor → c.isBooked = true →
      bookCoach today actor c = (Resp.err 400, c))
  ∧ (c.owner ≠ some actor → c.isBooked = false → today ≤ c.date →
      c.startTime < c.endTime →
      bookCoach today actor c =
        (Resp.ok, { c with peserta := some actor, isBooked := true })) := by
  refine ⟨?_, ?_, ?_⟩
  · intro h
    simp [bookCoach, h]
  · intro h hb
    simp [bookCoach, h, hb]
  · intro h hb hd ht
    have hclean :
        coachCleanOk today { c with peserta := some actor, isBooked := true }
          = true := by
      unfold coachCleanOk
      cases hcase : c.owner with
      | none => simp [hd, ht]
      | some o =>
          have hne : actor ≠ o := by
            intro he
            exact h (by rw [hcase, he])
          simp [hd, ht, hne]
    simp [bookCoach, h, hb, hclean]

/-- C1 (witness): a concrete non-owner booking of a free, date-valid coach
succeeds and stores the booker. -/
theorem C1_book_transitions_witness :
    bookCoach 5 2 (Coach.mk (some 1) none false 5 0 60) =
      (Resp.ok, Coach.mk (some 1) (some 2) true 5 0 60) :=
  (C1_book_transitions 5 2 (Coach.mk (some 1) none false 5 0 60)).2.2
    (by decide) (by decide) (by decide) (by decide)

/-- C1 (counterexample): a coach created for day 0, booked on day 1 by a
non-owner while `isBooked` is false: the claim says this succeeds, but the
save-time re-validation rejects the past date and the view answers 400. -/
theorem C1_book_counterexample :
    (Coach.mk (some 1) none false 0 0 60).owner ≠ some 2
  ∧ (Coach.mk (some 1) none false 0 0 60).isBooked = false
  ∧ (bookCoach 1 2 (Coach.mk (some 1) none false 0 0 60)).1 ≠ Resp.ok := by
  decide

/-- C2 (amended): `cancel` answers 403 and leaves the row unchanged
whenever the actor is not the recorded `peserta`; when the actor is the
`peserta`, it succeeds and clears `peserta` and `isBooked` provided the
re-validation run by the save accepts the row -- in particular provided
the coach's date has not passed (otherwise the save raises inside the
blanket handler and the view answers 500 with the row unchanged). -/
theorem C2_cancel_spec (today actor : Nat) (c : Coach) :
    (c.peserta ≠ some actor → cancelBooking today actor c = (Resp.err 403, c))
  ∧ (c.peserta = some actor → today ≤ c.date → c.startTime < c.endTime →
      cancelBooking today actor c =
        (Resp.ok, { c with peserta := none, isBooked := false })) := by
  constructor
  · intro h
    simp [cancelBooking, h]
  · intro h hd ht
    have hclean :
        coachCleanOk today { c with peserta := none, isBooked := false }
          = true := by
      unfold coachCleanOk
      simp [hd, ht]
    simp [cancelBooking, h, hclean]

/-- C2 (witness): the recorded booker cancels a date-valid booking and the
row is cleared; a stranger's cancel is refused with 403. -/
theorem C2_cancel_spec_witness :
    cancelBooking 5 2 (Coach.mk (some 1) (some 2) true 5 0 60) =
      (Resp.ok, Coach.mk (some 1) none false 5 0 60)
  ∧ cancelBooking 5 3 (Coach.mk (some 1) (some 2) true 5 0 60) =
      (Resp.err 403, Coach.mk (some 1) (some 2) true 5 0 60) :=
  ⟨(C2_cancel_spec 5 2 (Coach.mk (some 1) (some 2) true 5 0 60)).2
      (by decide) (by decide) (by decide),
   (C2_cancel_spec 5 3 (Coach.mk (some 1) (some 2) true 5 0 60)).1
      (by decide)⟩

/-- C2 (counterexample): the booker cancels a coach whose date has passed
(day 0, cancelled on day 1): the claim says the actor being the `peserta`
suffices for success, but the save-time re-validation rejects the past
date and the view answers 500 with the row unchanged. -/
theorem C2_cancel_counterexample :
    (Coach.mk (some 1) (some 2) true 0 0 60).peserta = some 2
  ∧ (cancelBooking 1 2 (Coach.mk (some 1) (some 2) true 0 0 60)).1 ≠ Resp.ok
  ∧ (cancelBooking 1 2 (Coach.mk (some 1) (some 2) true 0 0 60)).2 =
      Coach.mk (some 1) (some 2) true 0 0 60 := by
  decide

/-- C3 (amended): for the owner, `mark_unavailable` followed by
`mark_available` ends with `isBooked = false` and `peserta = none` -- even
when a real booker had been set -- provided the coach's time window is
consistent and its date has not passed (otherwise both saves fail and the
original state survives). -/
theorem C3_roundtrip (today actor : Nat) (c : Coach)
    (ho : c.owner = some actor) (hd : today ≤ c.date)
    (ht : c.startTime < c.endTime) :
    coachRoundTrip today actor c =
      { c with isBooked := false, peserta := none } := by
  unfold coachRoundTrip
  have hmid :
      (markUnavailable today actor c).2 = c ∨
      (markUnavailable today actor c).2 = { c with isBooked := true } := by
    unfold markUnavailable
    rw [ho]
    by_cases h2 : coachCleanOk today { c with isBooked := true } = true <;>
      rw [ho] at h2 <;> simp [h2]
  rcases hmid with hmid | hmid <;>
    rw [hmid, markAvailable_ok today actor _ (by simpa using ho)
      (by simpa using hd) (by simpa using ht)]

/-- C3 (witness): a concrete round trip by the owner on a date-valid coach
with a real booker set ends cleared. -/
theorem C3_roundtrip_witness :
    coachRoundTrip 5 1 (Coach.mk (some 1) (some 2) true 5 0 60) =
      Coach.mk (some 1) none false 5 0 60 :=
  C3_roundtrip 5 1 (Coach.mk (some 1) (some 2) true 5 0 60)
    (by decide) (by decide) (by decide)

/-- C3 (counterexample): the owner runs the round trip on a booked coach
whose date has passed (day 0, on day 1): both saves fail, so the final
state keeps `isBooked = true` and the booker -- the sequence does not
restore `isBooked = false, peserta = None` as claimed. -/
theorem C3_roundtrip_counterexample :
    (Coach.mk (some 1) (some 2) true 0 0 60).owner = some 1
  ∧ ¬((coachRoundTrip 1 1 (Coach.mk (some 1) (some 2) true 0 0 60)).isBooked
        = false
      ∧ (coachRoundTrip 1 1 (Coach.mk (some 1) (some 2) true 0 0 60)).peserta
        = none) := by
  decide

/-- `book_coach` preserves the booking-state invariant: it only writes a
booker after the self-booking check, and writes `isBooked` with it. -/
theorem bookCoach_inv (today actor : Nat) (c : Coach) (ih : CoachInv c) :
    CoachInv (bookCoach today actor c).2 := by
  by_cases h1 : c.owner = some actor
  · simpa [bookCoach, h1] using ih
  · by_cases h2 : c.isBooked = true
    · simpa [bookCoach, h1, h2] using ih
    · by_cases h3 : coachCleanOk today
          { c with peserta := some actor, isBooked := true } = true
      · have hst : (bookCoach today actor c).2 =
            { c with peserta := some actor, isBooked := true } := by
          simp [bookCoach, h1, h2, h3]
        rw [hst]
        refine ⟨fun _ => rfl, ?_⟩
        intro p hp ho
        cases hp
        exact h1 ho
      · simpa [bookCoach, h1, h2, h3] using ih

/-- `cancel_booking` preserves the booking-state invariant: it either
leaves the row alone or clears both fields. -/
theorem cancelBooking_inv (today actor : Nat) (c : Coach) (ih : CoachInv c) :
    CoachInv (cancelBooking today actor c).2 := by
  by_cases h1 : c.peserta ≠ some actor
  · simpa [cancelBooking, h1] using ih
  · by_cases h2 : coachCleanOk today
        { c with peserta := none, isBooked := false } = true
    · have hst : (cancelBooking today actor c).2 =
          { c with peserta := none, isBooked := false } := by
        simp [cancelBooking, h1, h2]
      rw [hst]
      exact ⟨by simp, by intro p hp; cases hp⟩
    · simpa [cancelBooking, h1, h2] using ih

/-- `mark_available` preserves the booking-state invariant: it either
leaves the row alone or clears both fields. -/
theorem markAvailable_inv (today actor : Nat) (c : Coach) (ih : CoachInv c) :
    CoachInv (markAvailable today actor c).2 := by
  by_cases h1 : c.owner ≠ some actor
  · simpa [markAvailable, h1] using ih
  · by_cases h2 : coachCleanOk today
        { c with isBooked := false, peserta := none } = true
    · have hst : (markAvailable today actor c).2 =
          { c with isBooked := false, peserta := none } := by
        simp [markAvailable, h1, h2]
      rw [hst]
      exact ⟨by simp, by intro p hp; cases hp⟩
    · simpa [markAvailable, h1, h2] using ih

/-- `mark_unavailable` preserves the booking-state invariant: it never
touches `peserta` and only raises `isBooked`. -/
theorem markUnavailable_inv (today actor : Nat) (c : Coach)
    (ih : CoachInv c) : CoachInv (markUnavailable today actor c).2 := by
  by_cases h1 : c.owner ≠ some actor
  · simpa [markUnavailable, h1] using ih
  · by_cases h2 : coachCleanOk today { c with isBooked := true } = true
    · have hst : (markUnavailable today actor c).2 =
          { c with isBooked := true } := by
        simp [markUnavailable, h1, h2]
      rw [hst]
      exact ⟨fun _ => rfl, fun p hp => ih.2 p hp⟩
    · simpa [markUnavailable, h1, h2] using ih

/-- `update_coach` preserves the booking-state invariant: it never touches
`peserta`, `isBooked` or the owner. -/
theorem updateCoach_inv (today actor d s e : Nat) (c : Coach)
    (ih : CoachInv c) : CoachInv (updateCoach today actor d s e c).2 := by
  by_cases h1 : c.owner ≠ some actor
  · simpa [updateCoach, h1] using ih
  · by_cases h2 : coachCleanOk today
        { c with date := d, startTime := s, endTime := e } = true
    · have hst : (updateCoach today actor d s e c).2 =
          { c with date := d, startTime := s, endTime := e } := by
        simp [updateCoach, h1, h2]
      rw [hst]
      exact ⟨fun hp => ih.1 hp, fun p hp => ih.2 p hp⟩
    · simpa [updateCoach, h1, h2] using ih

/-- C10: every Coach row reachable from creation through the public
operations satisfies: a set `peserta` implies `isBooked = true`, and
`peserta` never equals the owner. -/
theorem C10_coach_invariant (c : Coach) (h : CoachReach c) : CoachInv c := by
  induction h with
  | create today actor date s e c hc =>
      unfold addCoach at hc
      by_cases h1 : e ≤ s
      · rw [if_pos h1] at hc
        cases hc
      · rw [if_neg h1] at hc
        by_cases h2 : coachCleanOk today
            { owner := some actor, peserta := none, isBooked := false,
              date := date, startTime := s, endTime := e } = true
        · rw [if_pos h2] at hc
          cases hc
          exact ⟨by simp, by intro p hp; cases hp⟩
        · rw [if_neg h2] at hc
          cases hc
  | book today actor c _ ih => exact bookCoach_inv today actor c ih
  | cancel today actor c _ ih => exact cancelBooking_inv today actor c ih
  | avail today actor c _ ih => exact markAvailable_inv today actor c ih
  | unavail today actor c _ ih => exact markUnavailable_inv today actor c ih
  | update today actor d s e c _ ih => exact updateCoach_inv today actor d s e c ih

/-- C10 (witness): the invariant holds of a concrete freshly created
coach. -/
theorem C10_coach_invariant_witness :
    CoachInv (Coach.mk (some 1) none false 3 0 60) :=
  C10_coach_invariant (Coach.mk (some 1) none false 3 0 60)
    (CoachReach.create 0 1 3 0 60 (Coach.mk (some 1) none false 3 0 60)
      (by decide))

/-- C4 (amended): with a session `user_id` that resolves to no user, views
wrapped in `custom_login_required` answer with the login redirect and
flush the session (no key survives, `user_id` included); views built on
`_require_user` answer with the anonymous-path response (401 JSON body in
json mode, login redirect otherwise) but return the session -- its
`user_id` key included -- unchanged. -/
theorem C4_session_selfheal (users : List Nat) (isAjax jsonMode : Bool)
    (s : Session) (uid : Nat) (h1 : s.userId = some uid)
    (h2 : users.contains uid = false) :
    customLoginRequired users isAjax s = (.redirectLogin, flushSession)
  ∧ requireUser users jsonMode s =
      ((none, some (if jsonMode then .unauthorized else .redirectLogin)),
        s) := by
  have hmem : uid ∉ users := by simpa using h2
  constructor
  · simp [customLoginRequired, h1, h2, hmem]
  · simp [requireUser, getCurrentUser, h1, h2, hmem]

/-- C4 (witness): a concrete stale session: the decorator path flushes,
the `_require_user` path answers 401 but keeps the session as it was. -/
theorem C4_session_selfheal_witness :
    customLoginRequired [] false (Session.mk (some 7) []) =
      (.redirectLogin, flushSession)
  ∧ requireUser [] true (Session.mk (some 7) []) =
      ((none, some .unauthorized), Session.mk (some 7) []) :=
  have h :=
    C4_session_selfheal [] false true (Session.mk (some 7) []) 7 rfl
      (by decide)
  ⟨h.1, h.2⟩

/-- C4 (counterexample): a protected view built on `_require_user` (for
example `show_main` in the Coach app or `set_availability` in the Court
app), called with a session whose `user_id` is 7 while no user 7 exists:
the view answers the anonymous-path response, yet the session still
contains `user_id` afterwards -- the claim's "all session keys cleared"
fails for these views. -/
theorem C4_session_selfheal_counterexample :
    ([] : List Nat).contains 7 = false
  ∧ ((requireUser [] true (Session.mk (some 7) [])).1.2).isSome = true
  ∧ (requireUser [] true (Session.mk (some 7) [])).2.userId = some 7 := by
  decide

/-- C8 (amended): `json_toggle_availability` is organizer-only: a
non-organizer actor is answered 403 with the event unchanged, the
organizer's toggle succeeds and writes the string status; but
`ajax_toggle_availability` performs no organizer check at all, so on that
endpoint any authenticated actor's toggle with a boolean payload succeeds
and writes the string status. -/
theorem C8_toggle_availability (ev : SportEvent) (actor : Nat) (b : Bool) :
    (actor ≠ ev.organizer →
      jsonToggleAvailability ev actor (some b) = (Resp.err 403, ev))
  ∧ (actor = ev.organizer →
      jsonToggleAvailability ev actor (some b) =
        (Resp.ok,
          { ev with status := if b then ("available") else ("unavailable") }))
  ∧ ajaxToggleAvailability ev actor (some b) =
      (Resp.ok,
        { ev with status := if b then ("available") else ("unavailable") }) := by
  refine ⟨?_, ?_, rfl⟩
  · intro h
    have h2 : ev.organizer ≠ actor := fun he => h he.symm
    simp [jsonToggleAvailability, h2]
  · intro h
    simp [jsonToggleAvailability, h]

/-- C8 (witness): concrete toggles: the organizer succeeds on the json
endpoint, a stranger is refused there. -/
theorem C8_toggle_availability_witness :
    jsonToggleAvailability (SportEvent.mk 1 1 ("available")) 1 (some false) =
      (Resp.ok, SportEvent.mk 1 1 ("unavailable"))
  ∧ jsonToggleAvailability (SportEvent.mk 1 1 ("available")) 2 (some false) =
      (Resp.err 403, SportEvent.mk 1 1 ("available")) :=
  ⟨(C8_toggle_availability (SportEvent.mk 1 1 ("available")) 1 false).2.1 rfl,
   (C8_toggle_availability (SportEvent.mk 1 1 ("available")) 2 false).1
     (by decide)⟩

/-- C8 (counterexample): actor 2 is not the organizer (user 1) of the
event, yet `ajax_toggle_availability` succeeds and flips the status to
`unavailable` -- the claim's "a non-organizer actor is rejected with 403
and the event's status is unchanged" fails on this endpoint. -/
theorem C8_toggle_availability_counterexample :
    (2 : Nat) ≠ (SportEvent.mk 1 1 ("available")).organizer
  ∧ ajaxToggleAvailability (SportEvent.mk 1 1 ("available")) 2 (some false) =
      (Resp.ok, SportEvent.mk 1 1 ("unavailable")) := by
  constructor
  · decide
  · rfl

/-- C7: on the repository's own valid-login fixture (correct email and
password), `login_view` evaluates the unbound name `auth` at line 99 and
dies with an uncaught `NameError` before the session writes of lines
102-107: the request ends in a 500, not the claimed `success: true` JSON,
and no session key is written.  Moreover no input whatsoever can reach the
success reply, and no input ever modifies the session. -/
theorem C7_login_raises_namerror :
    loginView demoCheckPw [demoUser] ("test@example.com") ("password123") []
      = (LoginOutcome.uncaughtNameError, [])
  ∧ ∀ (checkPw : String → String → Bool) (users : List AuthUser)
      (email password : String) (sess : List (String × String)),
      (loginView checkPw users email password sess).1 ≠ LoginOutcome.success
    ∧ (loginView checkPw users email password sess).2 = sess := by
  refine ⟨by decide, ?_⟩
  intro checkPw users email password sess
  unfold loginView
  split
  · exact ⟨by simp, rfl⟩
  · split
    · exact ⟨by simp, rfl⟩
    · split
      · exact ⟨by simp, rfl⟩
      · exact ⟨by simp, rfl⟩

/-- The registration count of every `(event, user, schedule)` triple stays
at most 1 in every table reachable through the join and cancel views. -/
theorem regsReach_count_le_one (regs : List RegRow) (h : RegsReach regs) :
    ∀ t : RegRow, regs.count t ≤ 1 := by
  induction h with
  | nil => intro t; simp
  | join ev user sched regs _ ih =>
      intro t
      by_cases hc : regs.contains (ev, user, sched) = true
      · have hmem : (ev, user, sched) ∈ regs := by simpa using hc
        simpa [joinEvent, hmem] using ih t
      · have hmem : (ev, user, sched) ∉ regs := by simpa using hc
        have hj : (joinEvent regs ev user sched).2 =
            regs ++ [(ev, user, sched)] := by simp [joinEvent, hmem]
        rw [hj, List.count_append]
        rcases eq_or_ne t (ev, user, sched) with he | he
        · rw [he]
          have h0 : regs.count (ev, user, sched) = 0 :=
            List.count_eq_zero.mpr hmem
          simp [h0]
        · have h0 : List.count t [(ev, user, sched)] = 0 :=
            List.count_eq_zero.mpr (by simpa using he)
          simpa [h0] using ih t
  | cancel ev user regs _ ih =>
      intro t
      by_cases hc :
          (regs.filter (fun r => r.1 == ev && r.2.1 == user)).isEmpty = true
      · simpa [cancelRegistrations, hc] using ih t
      · have hcanc : (cancelRegistrations regs ev user).2 =
            regs.filter (fun r => !(r.1 == ev && r.2.1 == user)) := by
          simp [cancelRegistrations, hc]
        rw [hcanc]
        exact le_trans ((List.filter_sublist regs).count_le t) (ih t)

/-- C9: in every registration table reachable through the join and cancel
views, each `(event, user, schedule)` triple occurs at most once, and a
join for a triple that is already registered answers 400 and inserts
nothing. -/
theorem C9_registration_uniqueness (regs : List RegRow)
    (h : RegsReach regs) :
    (∀ t : RegRow, regs.count t ≤ 1)
  ∧ ∀ ev user sched : Nat, regs.contains (ev, user, sched) = true →
      joinEvent regs ev user sched = (Resp.err 400, regs) := by
  refine ⟨regsReach_count_le_one regs h, ?_⟩
  intro ev user sched hc
  have hmem : (ev, user, sched) ∈ regs := by simpa using hc
  simp [joinEvent, hmem]

/-- C9 (witness): after one concrete join the triple occurs once, and a
second identical join answers 400 leaving the table as it was. -/
theorem C9_registration_uniqueness_witness :
    List.count ((1, 2, 3) : RegRow) [(1, 2, 3)] ≤ 1
  ∧ joinEvent [(1, 2, 3)] 1 2 3 = (Resp.err 400, [(1, 2, 3)]) :=
  have h :=
    C9_registration_uniqueness (joinEvent [] 1 2 3).2
      (RegsReach.join 1 2 3 [] RegsReach.nil)
  ⟨h.1 (1, 2, 3), h.2 1 2 3 (by decide)⟩

/-- An UPDATE keyed on a primary key held by no row of the table leaves
the table unchanged. -/
theorem map_replace_id (l : List TimeSlot) (pkv : Nat) (t2 : TimeSlot)
    (h : ∀ u ∈ l, ¬u.pk = pkv) :
    l.map (fun u => if u.pk == pkv then t2 else u) = l := by
  induction l with
  | nil => rfl
  | cons a l ih =>
      have ha : ¬((a.pk == pkv) = true) := by
        simpa using h a (List.mem_cons_self a l)
      have ht : ∀ u ∈ l, ¬u.pk = pkv :=
        fun u hu => h u (List.mem_cons_of_mem a hu)
      rw [List.map_cons, if_neg ha, ih ht]

/-- The propositional-equality variant of `map_replace_id`, as `simp`
normalises the key comparison. -/
theorem map_replace_id_prop (l : List TimeSlot) (pkv : Nat) (t2 : TimeSlot)
    (h : ∀ u ∈ l, ¬u.pk = pkv) :
    l.map (fun u => if u.pk = pkv then t2 else u) = l := by
  induction l with
  | nil => rfl
  | cons a l ih =>
      rw [List.map_cons, if_neg (h a (List.mem_cons_self a l)),
        ih (fun u hu => h u (List.mem_cons_of_mem a hu))]

/-- An UPDATE of the single row satisfying a predicate, keyed on that
row's primary key, leaves the updated row as the predicate's single
match -- provided the table's primary keys are distinct and the update
still satisfies the predicate. -/
theorem filter_replace_single (p : TimeSlot → Bool) (l : List TimeSlot)
    (t t2 : TimeSlot) (hl : l.filter p = [t])
    (hpk : (l.map TimeSlot.pk).Nodup) (hpk2 : t2.pk = t.pk)
    (hp2 : p t2 = true) :
    (l.map (fun u => if u.pk == t.pk then t2 else u)).filter p = [t2] := by
  induction l with
  | nil => simp at hl
  | cons a l ih =>
      rw [List.map_cons]
      rw [List.map_cons] at hpk
      have hnd := (List.nodup_cons.mp hpk).1
      have hndl := (List.nodup_cons.mp hpk).2
      by_cases ha : p a = true
      · rw [List.filter_cons_of_pos ha] at hl
        injection hl with h1 h2
        subst h1
        have hnot : ∀ u ∈ l, ¬u.pk = a.pk := by
          intro u hu he
          exact hnd (he ▸ List.mem_map_of_mem TimeSlot.pk hu)
        rw [show (if a.pk == a.pk then t2 else a) = t2 by simp]
        rw [map_replace_id l a.pk t2 hnot]
        rw [List.filter_cons_of_pos hp2, h2]
      · rw [List.filter_cons_of_neg ha] at hl
        have htl : t ∈ l :=
          List.mem_of_mem_filter (hl ▸ List.mem_singleton.mpr rfl)
        have hane : ¬a.pk = t.pk := by
          intro he
          exact hnd (he ▸ List.mem_map_of_mem TimeSlot.pk htl)
        rw [show (if a.pk == t.pk then t2 else a) = a by simp [hane]]
        rw [List.filter_cons_of_neg ha]
        exact ih hl hndl

/-- C6: `create_booking` answers 400 and leaves the table unchanged when
the slot row for the requested court and date exists and is already
unavailable; otherwise (no row, or an available row) it succeeds and the
table afterwards holds the full-day slot for that court and date marked
unavailable.  Assumes the store's primary-key well-formedness and the
one-row-per-(court, date) shape that all slot writes maintain. -/
theorem C6_create_booking (db : SlotDB) (court : Court) (actor date : Nat)
    (hwf : db.WF) :
    (∀ t, slotsFor db court.id date = [t] → t.isAvailable = false →
        createBooking db court actor date = (Resp.err 400, db))
  ∧ ((∀ t, slotsFor db court.id date = [t] → t.isAvailable = true) →
      (slotsFor db court.id date).length ≤ 1 →
      ∃ db2, createBooking db court actor date = (Resp.ok, db2) ∧
        ∃ pk, slotsFor db2 court.id date =
          [TimeSlot.mk pk court.id date 0 1439 false]) := by
  constructor
  · intro t hm havail
    unfold createBooking getOrCreateSlot
    rw [hm]
    simp [havail]
  · intro hav hone
    cases hm : slotsFor db court.id date with
    | nil =>
        have hrun : createBooking db court actor date =
            (Resp.ok,
              SlotDB.mk
                (db.slots ++ [TimeSlot.mk db.nextPk court.id date 0 1439 false])
                (db.nextPk + 1)) := by
          unfold createBooking getOrCreateSlot saveSlot
          rw [hm]
          simp
          exact map_replace_id_prop db.slots db.nextPk _
            (fun u hu he => absurd (he ▸ hwf.2 u hu) (lt_irrefl _))
        refine ⟨_, hrun, db.nextPk, ?_⟩
        unfold slotsFor
        rw [List.filter_append]
        have h0 : db.slots.filter (slotMatch court.id date) = [] := hm
        rw [h0]
        simp [slotMatch]
    | cons t rest =>
        cases rest with
        | cons t3 rest2 => simp [hm] at hone
        | nil =>
            have havt : t.isAvailable = true := hav t hm
            have hmem : t ∈ db.slots.filter (slotMatch court.id date) := by
              rw [show db.slots.filter (slotMatch court.id date) =
                  slotsFor db court.id date from rfl, hm]
              exact List.mem_singleton.mpr rfl
            have hmatch : slotMatch court.id date t = true :=
              (List.mem_filter.mp hmem).2
            have hcd : t.court = court.id ∧ t.date = date := by
              have h2 := hmatch
              unfold slotMatch at h2
              simp only [Bool.and_eq_true, beq_iff_eq] at h2
              exact h2
            have hrun : createBooking db court actor date =
                (Resp.ok, saveSlot db
                  { t with
                      isAvailable := false
                      startTime := 0
                      endTime := 1439 }) := by
              unfold createBooking getOrCreateSlot
              rw [hm]
              simp [havt]
            refine ⟨_, hrun, t.pk, ?_⟩
            have hfin := filter_replace_single (slotMatch court.id date)
              db.slots t
              { t with isAvailable := false, startTime := 0, endTime := 1439 }
              hm hwf.1 rfl (by simpa [slotMatch] using hmatch)
            have hrec :
                ({ t with
                     isAvailable := false
                     startTime := 0
                     endTime := 1439 } : TimeSlot) =
                  TimeSlot.mk t.pk court.id date 0 1439 false := by
              show TimeSlot.mk t.pk t.court t.date 0 1439 false =
                TimeSlot.mk t.pk court.id date 0 1439 false
              rw [hcd.1, hcd.2]
            show (saveSlot db _).slots.filter (slotMatch court.id date) = _
            exact hfin.trans (by rw [hrec])

/-- C6 (witness): booking a concrete date with no pre-existing slot row
succeeds and leaves that date's slot stored as unavailable. -/
theorem C6_create_booking_witness :
    ∃ db2, createBooking (SlotDB.mk [] 0) (Court.mk 1 (some 5)) 9 10 =
        (Resp.ok, db2)
    ∧ ∃ pk, slotsFor db2 (Court.mk 1 (some 5)).id 10 =
        [TimeSlot.mk pk (Court.mk 1 (some 5)).id 10 0 1439 false] :=
  (C6_create_booking (SlotDB.mk [] 0) (Court.mk 1 (some 5)) 9 10
      ⟨by simp, by simp⟩).2
    (fun t ht => by simp [slotsFor] at ht) (by decide)

/-- The success path of `set_availability` when no slot row exists yet
for the requested court and date: the default row is inserted and the
sibling-delete pass runs over the extended table. -/
theorem setAvailability_ok_nil (db : SlotDB) (court : Court)
    (actor date : Nat) (isAvail : Bool)
    (hown : court.createdBy = some actor)
    (hm : slotsFor db court.id date = []) :
    setAvailability db court actor date isAvail =
      (Resp.ok,
        SlotDB.mk
          ((db.slots ++ [TimeSlot.mk db.nextPk court.id date 0 1439 isAvail]).filter
            (fun u =>
              !(u.court == court.id && u.date == date && u.pk != db.nextPk)))
          (db.nextPk + 1)) := by
  unfold setAvailability getOrCreateSlot
  rw [hm, if_neg (not_not_intro hown)]
  rfl

/-- The success path of `set_availability` when exactly one slot row
exists for the requested court and date: the row is updated in place and
the sibling-delete pass runs over the saved table. -/
theorem setAvailability_ok_one (db : SlotDB) (court : Court)
    (actor date : Nat) (isAvail : Bool) (t : TimeSlot)
    (hown : court.createdBy = some actor)
    (hm : slotsFor db court.id date = [t]) :
    setAvailability db court actor date isAvail =
      (Resp.ok,
        SlotDB.mk
          ((saveSlot db
              { t with
                  isAvailable := isAvail
                  startTime := 0
                  endTime := 1439 }).slots.filter
            (fun u => !(u.court == court.id && u.date == date && u.pk != t.pk)))
          db.nextPk) := by
  unfold setAvailability getOrCreateSlot
  rw [hm, if_neg (not_not_intro hown)]
  rfl

/-- C5: `set_availability` answers 403 with the table unchanged unless
the actor created the court; for the creator it succeeds and afterwards
exactly one slot row exists for that court and date, spanning 00:00-23:59
with the requested availability.  Assumes the store's primary-key
well-formedness and the one-row-per-(court, date) shape that all slot
writes maintain. -/
theorem C5_set_availability (db : SlotDB) (court : Court)
    (actor date : Nat) (isAvail : Bool) (hwf : db.WF) :
    (court.createdBy ≠ some actor →
      setAvailability db court actor date isAvail = (Resp.err 403, db))
  ∧ (court.createdBy = some actor →
      (slotsFor db court.id date).length ≤ 1 →
      ∃ db2, setAvailability db court actor date isAvail = (Resp.ok, db2) ∧
        ∃ pk, slotsFor db2 court.id date =
          [TimeSlot.mk pk court.id date 0 1439 isAvail]) := by
  constructor
  · intro h
    simp [setAvailability, h]
  · intro hown hone
    cases hm : slotsFor db court.id date with
    | nil =>
        refine ⟨_, setAvailability_ok_nil db court actor date isAvail hown hm,
          db.nextPk, ?_⟩
        have hm2 : db.slots.filter (slotMatch court.id date) = [] := hm
        unfold slotsFor
        rw [List.filter_filter, List.filter_append]
        have h1 :
            db.slots.filter
              (fun a => slotMatch court.id date a &&
                !(a.court == court.id && a.date == date && a.pk != db.nextPk))
              = [] := by
          refine List.filter_eq_nil_iff.mpr ?_
          intro u hu hc
          rw [Bool.and_eq_true] at hc
          exact (List.filter_eq_nil_iff.mp hm2 u hu) hc.1
        rw [h1]
        simp [slotMatch]
    | cons t rest =>
        cases rest with
        | cons t3 rest2 => simp [hm] at hone
        | nil =>
            have hm2 : db.slots.filter (slotMatch court.id date) = [t] := hm
            have hmem : t ∈ db.slots.filter (slotMatch court.id date) := by
              rw [hm2]
              exact List.mem_singleton.mpr rfl
            have hmatch : slotMatch court.id date t = true :=
              (List.mem_filter.mp hmem).2
            have hcd : t.court = court.id ∧ t.date = date := by
              have h2 := hmatch
              unfold slotMatch at h2
              simp only [Bool.and_eq_true, beq_iff_eq] at h2
              exact h2
            refine ⟨_, setAvailability_ok_one db court actor date isAvail t
              hown hm, t.pk, ?_⟩
            have hcomb :
                db.slots.filter
                  (fun a => slotMatch court.id date a &&
                    !(a.court == court.id && a.date == date && a.pk != t.pk))
                  = [t] := by
              have hflip := List.filter_congr
                (fun x _ => Bool.and_comm
                  (slotMatch court.id date x)
                  (!(x.court == court.id && x.date == date && x.pk != t.pk)))
                (l := db.slots)
              rw [hflip, ← List.filter_filter, hm2,
                List.filter_cons_of_pos (by simp), List.filter_nil]
            have hp2 :
                (fun a => slotMatch court.id date a &&
                    !(a.court == court.id && a.date == date && a.pk != t.pk))
                  ({ t with
                      isAvailable := isAvail
                      startTime := 0
                      endTime := 1439 } : TimeSlot) = true := by
              simp [slotMatch, hcd.1, hcd.2]
            have hrec :
                ({ t with
                     isAvailable := isAvail
                     startTime := 0
                     endTime := 1439 } : TimeSlot) =
                  TimeSlot.mk t.pk court.id date 0 1439 isAvail := by
              show TimeSlot.mk t.pk t.court t.date 0 1439 isAvail =
                TimeSlot.mk t.pk court.id date 0 1439 isAvail
              rw [hcd.1, hcd.2]
            have hfin := filter_replace_single
              (fun a => slotMatch court.id date a &&
                !(a.court == court.id && a.date == date && a.pk != t.pk))
              db.slots t
              { t with
                  isAvailable := isAvail
                  startTime := 0
                  endTime := 1439 }
              hcomb hwf.1 rfl hp2
            show ((saveSlot db _).slots.filter _).filter
                (slotMatch court.id date) = _
            rw [List.filter_filter]
            exact hfin.trans (by rw [hrec])

/-- C5 (witness): on a concrete empty table, a stranger's request is
refused with 403, and the creator's request stores exactly the one
full-day slot for the date. -/
theorem C5_set_availability_witness :
    setAvailability (SlotDB.mk [] 0) (Court.mk 1 (some 5)) 7 10 true =
      (Resp.err 403, SlotDB.mk [] 0)
  ∧ ∃ db2, setAvailability (SlotDB.mk [] 0) (Court.mk 1 (some 5)) 5 10 true =
        (Resp.ok, db2)
    ∧ ∃ pk, slotsFor db2 (Court.mk 1 (some 5)).id 10 =
        [TimeSlot.mk pk (Court.mk 1 (some 5)).id 10 0 1439 true] :=
  ⟨(C5_set_availability (SlotDB.mk [] 0) (Court.mk 1 (some 5)) 7 10 true
      ⟨by simp, by simp⟩).1 (by decide),
   (C5_set_availability (SlotDB.mk [] 0) (Court.mk 1 (some 5)) 5 10 true
      ⟨by simp, by simp⟩).2 rfl (by decide)⟩

end PBP
